import Mathlib

/-!
Shallow embedding of the Excel Visualizer wizard (src/streamlit_app.py).

The program is a three-step Streamlit wizard: step 1 loads all sheets of an
Excel file into a session-scoped dictionary, step 2 merges two chosen sheets
with a pandas join, step 3 hands the final table to a visualizer and offers a
full reset.  The embedding models the session state, the per-step action
handlers, and the pandas merge call used at line 93 of the source.
-/

namespace EV

/-- Cell value of a loosely typed tabular dataset: absent cell, number, or
text.  Models the pandas cell values the app manipulates. -/
inductive Value where
  | null : Value
  | int : Int → Value
  | str : String → Value
deriving DecidableEq, Repr

/-- A row is a mapping from column name to cell value, modelled as an
association list in column order. -/
abbrev Row := List (String × Value)

/-- A tabular dataset (a pandas DataFrame): a fixed column list and an
ordered list of rows. -/
structure Table where
  columns : List String
  rows : List Row
deriving DecidableEq, Repr

/-- Read one cell of a row; a column absent from the row reads as null
(pandas NaN). -/
def getCell (r : Row) (c : String) : Value :=
  (r.lookup c).getD Value.null

/-- Does the value hold an integer? -/
def Value.isInt : Value → Bool
  | .int _ => true
  | _ => false

/-- Model of the pandas column dtype relevant to merge-key compatibility:
a nonempty column whose every cell is an integer has an integer dtype,
anything else is an object column. -/
def intDtypeCol (t : Table) (c : String) : Bool :=
  !t.rows.isEmpty && t.rows.all fun r => (getCell r c).isInt

/-- Model of the pandas merge-key type check: pandas raises when asked to
merge an integer column with an object column; two integer columns or two
object columns are compatible. -/
def compatibleKeyDtypes (lt : Table) (lk : String) (rt : Table) (rk : String) : Bool :=
  intDtypeCol lt lk == intDtypeCol rt rk

/-- The four join kinds offered by the Join Type selectbox (line 88 of the
source). -/
inductive JoinKind where
  | inner : JoinKind
  | left : JoinKind
  | right : JoinKind
  | outer : JoinKind
deriving DecidableEq, Repr

/-- Right-side columns kept in a merge result: when both keys have the same
name, pandas keeps a single key column and drops the right one. -/
def rightKeptColumns (rt : Table) (lk rk : String) : List String :=
  if lk = rk then rt.columns.filter (fun c => !(c == rk)) else rt.columns

/-- Output name of a left column: pandas suffixes a name colliding with a
right column by "_x", except the shared join key, which stays unsuffixed. -/
def leftOutName (lt rt : Table) (lk rk : String) (c : String) : String :=
  if rt.columns.contains c && !(c == lk && lk == rk) then c ++ "_x" else c

/-- Output name of a kept right column: pandas suffixes a name colliding
with a left column by "_y", except the shared join key. -/
def rightOutName (lt rt : Table) (lk rk : String) (c : String) : String :=
  if lt.columns.contains c && !(c == rk && lk == rk) then c ++ "_y" else c

/-- Combined output row for one matched pair of input rows. -/
def combinedRow (lt rt : Table) (lk rk : String) (l r : Row) : Row :=
  lt.columns.map (fun c => (leftOutName lt rt lk rk c, getCell l c)) ++
    (rightKeptColumns rt lk rk).map (fun c => (rightOutName lt rt lk rk c, getCell r c))

/-- Output row for a left row with no right match (left and outer joins):
right-side columns are null-filled. -/
def leftUnmatchedRow (lt rt : Table) (lk rk : String) (l : Row) : Row :=
  lt.columns.map (fun c => (leftOutName lt rt lk rk c, getCell l c)) ++
    (rightKeptColumns rt lk rk).map (fun c => (rightOutName lt rt lk rk c, Value.null))

/-- Output row for a right row with no left match (right and outer joins):
left-side columns are null-filled, except a shared key column, which carries
the right key value. -/
def rightUnmatchedRow (lt rt : Table) (lk rk : String) (r : Row) : Row :=
  lt.columns.map (fun c =>
      (leftOutName lt rt lk rk c,
        if c == lk && lk == rk then getCell r rk else Value.null)) ++
    (rightKeptColumns rt lk rk).map (fun c => (rightOutName lt rt lk rk c, getCell r c))

/-- Right rows whose key cell equals the given value. -/
def matchesR (rt : Table) (rk : String) (v : Value) : List Row :=
  rt.rows.filter fun r => decide (v = getCell r rk)

/-- Left rows whose key cell equals the given value. -/
def matchesL (lt : Table) (lk : String) (v : Value) : List Row :=
  lt.rows.filter fun l => decide (getCell l lk = v)

/-- Rows of a pandas merge, per join kind: inner keeps matched pairs only,
left and right keep the unmatched rows of that side null-filled, outer keeps
both. -/
def mergeRows (lt rt : Table) (lk rk : String) : JoinKind → List Row
  | .inner => lt.rows.flatMap fun l =>
      (matchesR rt rk (getCell l lk)).map (combinedRow lt rt lk rk l)
  | .left => lt.rows.flatMap fun l =>
      let ms := matchesR rt rk (getCell l lk)
      if ms.isEmpty then [leftUnmatchedRow lt rt lk rk l]
      else ms.map (combinedRow lt rt lk rk l)
  | .right => rt.rows.flatMap fun r =>
      let ms := matchesL lt lk (getCell r rk)
      if ms.isEmpty then [rightUnmatchedRow lt rt lk rk r]
      else ms.map (fun l => combinedRow lt rt lk rk l r)
  | .outer =>
      (lt.rows.flatMap fun l =>
        let ms := matchesR rt rk (getCell l lk)
        if ms.isEmpty then [leftUnmatchedRow lt rt lk rk l]
        else ms.map (combinedRow lt rt lk rk l)) ++
      ((rt.rows.filter fun r => (matchesL lt lk (getCell r rk)).isEmpty).map
        (rightUnmatchedRow lt rt lk rk))

/-- Column list of a pandas merge result: left columns then kept right
columns, collision names suffixed. -/
def mergedColumns (lt rt : Table) (lk rk : String) : List String :=
  lt.columns.map (leftOutName lt rt lk rk) ++
    (rightKeptColumns rt lk rk).map (rightOutName lt rt lk rk)

/-- The merge result table. -/
def mergeTables (lt rt : Table) (lk rk : String) (how : JoinKind) : Table :=
  ⟨mergedColumns lt rt lk rk, mergeRows lt rt lk rk how⟩

/-- Model of the external call pd.merge(left_df, right_df, left_on, right_on,
how) at line 93 of src/streamlit_app.py.  Returns none when pandas raises:
a key column absent from its table, or integer-versus-object key columns. -/
def pdMerge (lt rt : Table) (lk rk : String) (how : JoinKind) : Option Table :=
  if lt.columns.contains lk && rt.columns.contains rk &&
      compatibleKeyDtypes lt lk rt rk then
    some (mergeTables lt rt lk rk how)
  else none

/-- The Streamlit session state of the wizard (lines 16-21 of the source):
the current step, the dictionary of loaded sheets (sheet name to DataFrame,
in insertion order), and the optional final table. -/
structure SessionState where
  step : Nat
  dataframes : List (String × Table)
  final_df : Option Table
deriving DecidableEq, Repr

/-- The initial session state: step 1, no sheets loaded, no final table. -/
def initialState : SessionState :=
  ⟨1, [], none⟩

/-- Helper move_to_step (lines 24-26): set the current step. -/
def move_to_step (s : SessionState) (n : Nat) : SessionState :=
  { s with step := n }

/-- load_excel_file (lines 28-38): parse every sheet of the uploaded file
into the dataframes dictionary.  The parsed argument is the result of the
external Excel parser: none models a parse exception, in which case the
handler reports the error and leaves the state unchanged. -/
def load_excel_file (s : SessionState) (parsed : Option (List (String × Table))) :
    SessionState :=
  match parsed with
  | some sheets => { s with dataframes := sheets }
  | none => s

/-- The user actions of the three wizard views: the upload widget and Next
button of step 1, the Back, Merge, Skip and Next buttons of step 2, and the
Start Over button of step 3. -/
inductive UserAction where
  | upload : Option (List (String × Table)) → UserAction
  | nextToRelate : UserAction
  | back : UserAction
  | mergeSheets : String → String → String → String → JoinKind → UserAction
  | skipMerge : String → UserAction
  | nextToVisualize : UserAction
  | startOver : UserAction

/-- Upload logic of render_step1_upload (lines 47-49): a provided file is
loaded only when the dataframes dictionary is still empty; the Next button
(line 58) appears only once sheets are loaded. -/
def step1Handler (s : SessionState) (a : UserAction) : SessionState :=
  match a with
  | .upload parsed => if s.dataframes.isEmpty then load_excel_file s parsed else s
  | .nextToRelate => if s.dataframes.isEmpty then s else move_to_step s 2
  | _ => s

/-- Choices offered by the Select Right Sheet selectbox (line 76): every
sheet name except the currently selected left sheet. -/
def rightSheetChoices (sheet_names : List String) (left_sheet : String) : List String :=
  sheet_names.filter fun c => c != left_sheet

/-- Merge button logic (lines 91-98): look up the chosen sheets, run
pd.merge; on success store the result as the final table, on an exception
report the error and leave the state unchanged. -/
def mergeAction (s : SessionState) (ls rs lo ro : String) (how : JoinKind) :
    SessionState :=
  match s.dataframes.lookup ls, s.dataframes.lookup rs with
  | some lt, some rt =>
    match pdMerge lt rt lo ro how with
    | some m => { s with final_df := some m }
    | none => s
  | _, _ => s

/-- Skip button logic (lines 107-110): shown only while no final table is
set; stores the selected left sheet as the final table and moves to step 3. -/
def skipAction (s : SessionState) (ls : String) : SessionState :=
  if s.final_df.isNone then
    match s.dataframes.lookup ls with
    | some lt => move_to_step { s with final_df := some lt } 3
    | none => s
  else s

/-- render_step2_relations action logic (lines 61-112): Back (line 104),
Merge (line 91), Skip (lines 107-110) and, once a final table exists, Next
(line 112). -/
def step2Handler (s : SessionState) (a : UserAction) : SessionState :=
  match a with
  | .back => move_to_step s 1
  | .mergeSheets ls rs lo ro how => mergeAction s ls rs lo ro how
  | .skipMerge ls => skipAction s ls
  | .nextToVisualize => if s.final_df.isSome then move_to_step s 3 else s
  | _ => s

/-- render_step3_visualize action logic (lines 127-130): Start Over empties
the dataframes dictionary, unsets the final table and returns to step 1. -/
def step3Handler (s : SessionState) (a : UserAction) : SessionState :=
  match a with
  | .startOver => move_to_step { s with dataframes := [], final_df := none } 1
  | _ => s

/-- The main router (lines 137-145): the current step decides which view's
actions are live; an action of another view leaves the state unchanged. -/
def dispatch (s : SessionState) (a : UserAction) : SessionState :=
  if s.step = 1 then step1Handler s a
  else if s.step = 2 then step2Handler s a
  else if s.step = 3 then step3Handler s a
  else s

/-- The progress bar mapping of main (line 137). -/
def progress_map : List (Nat × Nat) :=
  [(1, 33), (2, 66), (3, 100)]

/-- A session state is reachable when it arises from the initial state by a
sequence of dispatched user actions. -/
inductive Reachable : SessionState → Prop where
  | init : Reachable initialState
  | step {s : SessionState} (a : UserAction) : Reachable s → Reachable (dispatch s a)

/-- Written from the spec sentence for the inner kind: output rows are the
left rows paired with the right rows whose left-key value equals the
right-key value; every other pairing is dropped. -/
def specInnerRows (lt rt : Table) (lk rk : String) : List Row :=
  ((lt.rows.flatMap fun l => rt.rows.map fun r => (l, r)).filter
      fun q => decide (getCell q.1 lk = getCell q.2 rk)).map
    fun q => combinedRow lt rt lk rk q.1 q.2

/-- Left table of the spec's worked inner-join example. -/
def exLeft : Table :=
  ⟨["id", "a"], [[("id", .int 1), ("a", .str "x")], [("id", .int 2), ("a", .str "y")]]⟩

/-- Right table of the spec's worked inner-join example. -/
def exRight : Table :=
  ⟨["id", "b"], [[("id", .int 1), ("b", .str "p")], [("id", .int 3), ("b", .str "q")]]⟩

/-- Left table of the spec's row-multiplicity example: two rows share key 5. -/
def exMultiLeft : Table :=
  ⟨["k", "a"], [[("k", .int 5), ("a", .str "x")], [("k", .int 5), ("a", .str "y")]]⟩

/-- Right table of the spec's row-multiplicity example: one row with key 5. -/
def exMultiRight : Table :=
  ⟨["k", "b"], [[("k", .int 5), ("b", .str "p")]]⟩

/-- A table whose key column has integer dtype. -/
def exBadLeft : Table := ⟨["k"], [[("k", .int 1)]]⟩

/-- A table whose key column has object dtype; merging it with exBadLeft on
k makes pandas raise. -/
def exBadRight : Table := ⟨["k"], [[("k", .str "a")]]⟩

theorem flatMap_filter_pairing {α β γ : Type} (ls : List α) (rs : List β)
    (p : α → β → Bool) (f : α → β → γ) :
    (ls.flatMap fun l => (rs.filter fun r => p l r).map fun r => f l r) =
      ((ls.flatMap fun l => rs.map fun r => (l, r)).filter fun q => p q.1 q.2).map
        fun q => f q.1 q.2 := by
  induction ls with
  | nil => simp
  | cons a as ih =>
    simp only [List.flatMap_cons, List.filter_append, List.map_append, ih,
      List.filter_map, List.map_map, Function.comp_def]

theorem mergeRows_inner_eq_spec (lt rt : Table) (lk rk : String) :
    mergeRows lt rt lk rk .inner = specInnerRows lt rt lk rk := by
  simpa [mergeRows, matchesR, specInnerRows] using
    flatMap_filter_pairing lt.rows rt.rows
      (fun l r => decide (getCell l lk = getCell r rk))
      (fun l r => combinedRow lt rt lk rk l r)

/-- C1: for the inner join kind, merge returns exactly the rows pairing a
left row with a right row whose left-key value equals the right-key value,
dropping every non-matching row on both sides. -/
theorem inner_join_matches_on_keys (lt rt : Table) (lk rk : String) (m : Table)
    (h : pdMerge lt rt lk rk .inner = some m) :
    m.rows = specInnerRows lt rt lk rk := by
  unfold pdMerge at h
  split at h
  · cases h
    exact mergeRows_inner_eq_spec lt rt lk rk
  · cases h

/-- C1 witness: on the spec's worked example joined on id, the merge
succeeds, the result is exactly the single row pairing id 1 on both sides,
and its rows match the spec-side characterization. -/
theorem inner_join_matches_on_keys_witness :
    pdMerge exLeft exRight "id" "id" .inner =
        some ⟨["id", "a", "b"],
          [[("id", .int 1), ("a", .str "x"), ("b", .str "p")]]⟩ ∧
      (Table.mk ["id", "a", "b"]
          [[("id", .int 1), ("a", .str "x"), ("b", .str "p")]]).rows =
        specInnerRows exLeft exRight "id" "id" :=
  ⟨by decide, inner_join_matches_on_keys exLeft exRight "id" "id" _ (by decide)⟩

/-- C7: the inner join emits, for each left row, one output row per matching
right row, so a non-unique key yields the full cross-product of matches: the
output length is the sum over left rows of their match counts. -/
theorem inner_join_row_multiplicity (lt rt : Table) (lk rk : String) (m : Table)
    (h : pdMerge lt rt lk rk .inner = some m) :
    m.rows.length =
      (lt.rows.map fun l => (matchesR rt rk (getCell l lk)).length).sum := by
  unfold pdMerge at h
  split at h
  · cases h
    simp [mergeTables, mergeRows, List.length_flatMap, Function.comp_def,
      List.length_map]
  · cases h

/-- C7 witness: two left rows with key 5 against one right row with key 5
merge into exactly 2 output rows, not 1. -/
theorem inner_join_row_multiplicity_witness :
    pdMerge exMultiLeft exMultiRight "k" "k" .inner =
        some ⟨["k", "a", "b"],
          [[("k", .int 5), ("a", .str "x"), ("b", .str "p")],
           [("k", .int 5), ("a", .str "y"), ("b", .str "p")]]⟩ ∧
      (Table.mk ["k", "a", "b"]
          [[("k", .int 5), ("a", .str "x"), ("b", .str "p")],
           [("k", .int 5), ("a", .str "y"), ("b", .str "p")]]).rows.length = 2 := by
  refine ⟨by decide, ?_⟩
  rw [inner_join_row_multiplicity exMultiLeft exMultiRight "k" "k" _ (by decide)]
  decide

/-- C2: in the Relate step, a failing merge (pandas raises) leaves the whole
session state unchanged: the final table is not set, the step does not
advance, and the user remains in Relate to adjust the join spec and retry. -/
theorem merge_failure_leaves_state (s : SessionState) (ls rs lo ro : String)
    (how : JoinKind) (lt rt : Table) (h2 : s.step = 2)
    (hl : s.dataframes.lookup ls = some lt)
    (hr : s.dataframes.lookup rs = some rt)
    (hm : pdMerge lt rt lo ro how = none) :
    dispatch s (.mergeSheets ls rs lo ro how) = s := by
  simp [dispatch, h2, step2Handler, mergeAction, hl, hr, hm]

/-- C2 witness: merging an integer key column with a text key column fails,
and the concrete Relate-step session is left exactly as it was. -/
theorem merge_failure_leaves_state_witness :
    dispatch ⟨2, [("L", exBadLeft), ("R", exBadRight)], none⟩
        (.mergeSheets "L" "R" "k" "k" .inner) =
      ⟨2, [("L", exBadLeft), ("R", exBadRight)], none⟩ :=
  merge_failure_leaves_state ⟨2, [("L", exBadLeft), ("R", exBadRight)], none⟩
    "L" "R" "k" "k" .inner exBadLeft exBadRight rfl (by decide) (by decide) (by decide)

/-- C3: the right-sheet choices computed from the loaded sheet names never
include the currently selected left sheet, whatever the session holds. -/
theorem right_choices_exclude_left_sheet (s : SessionState) (ls : String) :
    ls ∉ rightSheetChoices (s.dataframes.map Prod.fst) ls := by
  simp [rightSheetChoices, List.mem_filter]

/-- C4: in the Relate step with no final table set, the skip action sets the
final table to the looked-up left sheet verbatim and advances the step to 3,
changing nothing else. -/
theorem skip_sets_final_table_and_advances (s : SessionState) (ls : String)
    (lt : Table) (h2 : s.step = 2) (hf : s.final_df = none)
    (hl : s.dataframes.lookup ls = some lt) :
    dispatch s (.skipMerge ls) = { s with final_df := some lt, step := 3 } := by
  simp [dispatch, h2, step2Handler, skipAction, hf, hl, move_to_step]

/-- C4 witness: skipping with left sheet L makes the final table exactly the
stored table for L, rows and columns untouched, and the step becomes 3. -/
theorem skip_sets_final_table_and_advances_witness :
    dispatch ⟨2, [("L", exLeft), ("R", exRight)], none⟩ (.skipMerge "L") =
      ⟨3, [("L", exLeft), ("R", exRight)], some exLeft⟩ :=
  skip_sets_final_table_and_advances ⟨2, [("L", exLeft), ("R", exRight)], none⟩
    "L" exLeft rfl rfl (by decide)

/-- C5: Start Over returns the session to the initial state — empty Table
Store, no final table, step 1 — and a subsequent load is accepted, filling
the store with the fresh sheets instead of being skipped as a duplicate. -/
theorem start_over_resets_session (s : SessionState) (h3 : s.step = 3) :
    dispatch s .startOver = initialState ∧
      ∀ sheets : List (String × Table),
        dispatch (dispatch s .startOver) (.upload (some sheets)) =
          { initialState with dataframes := sheets } := by
  have h : dispatch s .startOver = initialState := by
    cases s with
    | mk st dfs f =>
      simp only at h3
      subst h3
      simp [dispatch, step3Handler, move_to_step, initialState]
  refine ⟨h, fun sheets => ?_⟩
  rw [h]
  simp [dispatch, initialState, step1Handler, load_excel_file]

/-- C5 witness: starting over from a concrete Visualize-step session empties
everything, and re-loading the same file repopulates the store. -/
theorem start_over_resets_session_witness :
    dispatch ⟨3, [("L", exLeft)], some exLeft⟩ .startOver = initialState ∧
      dispatch (dispatch ⟨3, [("L", exLeft)], some exLeft⟩ .startOver)
          (.upload (some [("L", exLeft)])) =
        ⟨1, [("L", exLeft)], none⟩ :=
  ⟨(start_over_resets_session ⟨3, [("L", exLeft)], some exLeft⟩ rfl).1,
    (start_over_resets_session ⟨3, [("L", exLeft)], some exLeft⟩ rfl).2 [("L", exLeft)]⟩

/-- C6: once the Table Store is populated, a further load call is a no-op:
the session, and in particular the store contents, are unchanged whatever
file is offered. -/
theorem load_noop_when_populated (s : SessionState)
    (p : Option (List (String × Table))) (hp : s.dataframes ≠ []) :
    dispatch s (.upload p) = s := by
  have hne : s.dataframes.isEmpty = false := by
    cases h : s.dataframes with
    | nil => exact absurd h hp
    | cons a as => rfl
  unfold dispatch
  split
  · simp [step1Handler, hne]
  · split
    · simp [step2Handler]
    · split
      · simp [step3Handler]
      · rfl

/-- C6 witness: with one sheet already loaded, uploading a different file
leaves the store holding the first load's contents. -/
theorem load_noop_when_populated_witness :
    dispatch ⟨1, [("L", exLeft)], none⟩ (.upload (some [("R", exRight)])) =
      ⟨1, [("L", exLeft)], none⟩ :=
  load_noop_when_populated ⟨1, [("L", exLeft)], none⟩ (some [("R", exRight)])
    (by decide)

/-- C8: a merge invocation, successful or failed and whatever the current
step, never changes the Table Store: both input tables are still stored
unchanged afterwards, the join only produces a new table. -/
theorem merge_preserves_table_store (s : SessionState) (ls rs lo ro : String)
    (how : JoinKind) :
    (dispatch s (.mergeSheets ls rs lo ro how)).dataframes = s.dataframes := by
  have hm : (mergeAction s ls rs lo ro how).dataframes = s.dataframes := by
    unfold mergeAction
    repeat' split
    all_goals rfl
  unfold dispatch
  split
  · rfl
  · split
    · exact hm
    · split
      · rfl
      · rfl

/-- C9: in the Relate step a successful merge only sets the final table to
the merge result — the step stays 2 until the explicit Next action moves it
to 3 — and a further successful merge from the resulting state overwrites
the final table with the new result. -/
theorem merge_success_sets_final_only (s : SessionState) (ls rs lo ro : String)
    (how : JoinKind) (lt rt m : Table) (h2 : s.step = 2)
    (hl : s.dataframes.lookup ls = some lt)
    (hr : s.dataframes.lookup rs = some rt)
    (hm : pdMerge lt rt lo ro how = some m) :
    dispatch s (.mergeSheets ls rs lo ro how) = { s with final_df := some m } ∧
      dispatch { s with final_df := some m } .nextToVisualize =
        { s with final_df := some m, step := 3 } ∧
      ∀ ls2 rs2 lo2 ro2 : String, ∀ how2 : JoinKind, ∀ lt2 rt2 m2 : Table,
        s.dataframes.lookup ls2 = some lt2 →
        s.dataframes.lookup rs2 = some rt2 →
        pdMerge lt2 rt2 lo2 ro2 how2 = some m2 →
        dispatch (dispatch s (.mergeSheets ls rs lo ro how))
            (.mergeSheets ls2 rs2 lo2 ro2 how2) =
          { s with final_df := some m2 } := by
  have h1 : dispatch s (.mergeSheets ls rs lo ro how) = { s with final_df := some m } := by
    simp [dispatch, h2, step2Handler, mergeAction, hl, hr, hm]
  refine ⟨h1, ?_, ?_⟩
  · simp [dispatch, h2, step2Handler, move_to_step]
  · intro ls2 rs2 lo2 ro2 how2 lt2 rt2 m2 hl2 hr2 hm2
    rw [h1]
    simp [dispatch, h2, step2Handler, mergeAction, hl2, hr2, hm2]

/-- C9 witness: after a concrete successful merge the session is still in
step 2 with the final table set to the join result, and only Next moves it
to step 3. -/
theorem merge_success_sets_final_only_witness :
    dispatch ⟨2, [("L", exLeft), ("R", exRight)], none⟩
        (.mergeSheets "L" "R" "id" "id" .inner) =
      ⟨2, [("L", exLeft), ("R", exRight)],
        some ⟨["id", "a", "b"],
          [[("id", .int 1), ("a", .str "x"), ("b", .str "p")]]⟩⟩ ∧
    dispatch ⟨2, [("L", exLeft), ("R", exRight)],
        some ⟨["id", "a", "b"],
          [[("id", .int 1), ("a", .str "x"), ("b", .str "p")]]⟩⟩
        .nextToVisualize =
      ⟨3, [("L", exLeft), ("R", exRight)],
        some ⟨["id", "a", "b"],
          [[("id", .int 1), ("a", .str "x"), ("b", .str "p")]]⟩⟩ :=
  ⟨(merge_success_sets_final_only ⟨2, [("L", exLeft), ("R", exRight)], none⟩
      "L" "R" "id" "id" .inner exLeft exRight _ rfl (by decide) (by decide)
      (by decide)).1,
    (merge_success_sets_final_only ⟨2, [("L", exLeft), ("R", exRight)], none⟩
      "L" "R" "id" "id" .inner exLeft exRight _ rfl (by decide) (by decide)
      (by decide)).2.1⟩

theorem mergeAction_step (s : SessionState) (ls rs lo ro : String) (how : JoinKind) :
    (mergeAction s ls rs lo ro how).step = s.step := by
  unfold mergeAction
  repeat' split
  all_goals rfl

theorem skipAction_step (s : SessionState) (ls : String) :
    (skipAction s ls).step = s.step ∨ (skipAction s ls).step = 3 := by
  unfold skipAction
  split
  · split
    · right; rfl
    · left; rfl
  · left; rfl

theorem step1Handler_step (s : SessionState) (a : UserAction) :
    (step1Handler s a).step = s.step ∨ (step1Handler s a).step = 2 := by
  cases a
  case upload p =>
    simp only [step1Handler]
    split
    · left; cases p <;> rfl
    · left; rfl
  case nextToRelate =>
    simp only [step1Handler]
    split
    · left; rfl
    · right; rfl
  all_goals exact Or.inl rfl

theorem step2Handler_step (s : SessionState) (a : UserAction) :
    (step2Handler s a).step = s.step ∨ (step2Handler s a).step = 1 ∨
      (step2Handler s a).step = 3 := by
  cases a
  case back => right; left; rfl
  case mergeSheets ls rs lo ro how => exact Or.inl (mergeAction_step s ls rs lo ro how)
  case skipMerge ls =>
    rcases skipAction_step s ls with h | h
    · left; exact h
    · right; right; exact h
  case nextToVisualize =>
    simp only [step2Handler]
    split
    · right; right; rfl
    · left; rfl
  all_goals exact Or.inl rfl

theorem step3Handler_step (s : SessionState) (a : UserAction) :
    (step3Handler s a).step = s.step ∨ (step3Handler s a).step = 1 := by
  cases a
  case startOver => right; rfl
  all_goals exact Or.inl rfl

theorem dispatch_step_cases (s : SessionState) (a : UserAction)
    (h : s.step = 1 ∨ s.step = 2 ∨ s.step = 3) :
    (dispatch s a).step = 1 ∨ (dispatch s a).step = 2 ∨ (dispatch s a).step = 3 := by
  unfold dispatch
  split
  · rename_i h1
    rcases step1Handler_step s a with hh | hh
    · left; rw [hh, h1]
    · right; left; exact hh
  · split
    · rename_i h1 h2
      rcases step2Handler_step s a with hh | hh | hh
      · right; left; rw [hh, h2]
      · left; exact hh
      · right; right; exact hh
    · split
      · rename_i h1 h2 h3
        rcases step3Handler_step s a with hh | hh
        · right; right; rw [hh, h3]
        · left; exact hh
      · rename_i h1 h2 h3
        rcases h with h | h | h
        · exact absurd h h1
        · exact absurd h h2
        · exact absurd h h3

/-- C10: every reachable session state has its step in the set 1, 2, 3 — the
step starts at 1 and every dispatched action targets only those values — so
the router's and the progress bar's lookups by step are always defined. -/
theorem reachable_step_in_range (s : SessionState) (h : Reachable s) :
    (s.step = 1 ∨ s.step = 2 ∨ s.step = 3) ∧
      (progress_map.lookup s.step).isSome := by
  induction h with
  | init => exact ⟨Or.inl rfl, by decide⟩
  | step a hs ih =>
    have hm := dispatch_step_cases _ a ih.1
    refine ⟨hm, ?_⟩
    rcases hm with h | h | h <;> rw [h] <;> decide

/-- C10 witness: the initial state is reachable, its step is 1 and the
progress bar lookup on it is defined. -/
theorem reachable_step_in_range_witness :
    (initialState.step = 1 ∨ initialState.step = 2 ∨ initialState.step = 3) ∧
      (progress_map.lookup initialState.step).isSome :=
  reachable_step_in_range initialState Reachable.init

end EV
